import Mathlib

/-!
Shallow embedding of `CS 499/Project7/Source.cpp`: a small SQLite-backed
CRUD program (connection RAII wrapper, input validation, prepared-statement
write path, table creation, row reading, row updating).

Exceptions in the C++ become `Except DBError`; the SQLite engine is modelled
by an explicit store (`DBState`) plus an oracle (`Engine`) for the
environmental outcomes of the native calls (`sqlite3_prepare_v2` /
`sqlite3_step` failing, the return codes of the `sqlite3_bind_*` calls).
Each native call the program makes on the write path is recorded in an
event trace so that resource (statement-handle) accounting is visible.
-/

namespace EPortfolio

/-- Error taxonomy: each constructor corresponds to one `throw` site of the
C++ source (`std::invalid_argument` for the two validation failures,
`std::runtime_error` for the rest). -/
inductive DBError where
  | ageOutOfRange
  | nameInvalid
  | connectionFailed
  | prepareFailed
  | execFailed
  | ddlFailed
  | readFailed
deriving DecidableEq, Repr

/-- One row of the `Users` table: `ID INTEGER PRIMARY KEY AUTOINCREMENT,
Name TEXT NOT NULL, Age INTEGER NOT NULL`. -/
structure Row where
  id : Int
  name : String
  age : Int
deriving DecidableEq, Repr

/-- The persistent store: whether the `Users` table exists, its rows, and the
next `AUTOINCREMENT` key the engine will assign. -/
structure DBState where
  tableExists : Bool
  rows : List Row
  nextId : Int
deriving DecidableEq, Repr

/-- The store backing a freshly created database file. -/
def emptyStore : DBState := ⟨false, [], 1⟩

/-- Oracle for the environmental outcomes of the native calls made on one
write operation: whether `sqlite3_prepare_v2` fails for an engine-side
reason, whether `sqlite3_step` returns something other than `SQLITE_DONE`,
and the return codes produced by the three possible `sqlite3_bind_*`
calls (the source discards these codes; they are carried so that theorems
can state that the program's result does not depend on them). -/
structure Engine where
  prepareGlitch : Bool
  stepGlitch : Bool
  bindTextRc : Int
  bindIntRc : Int
  bindIdRc : Int
deriving DecidableEq, Repr

/-- Event trace of the native statement calls a write operation performs.
`prepareOk` records a successful `sqlite3_prepare_v2` (a live statement
handle was allocated); `prepareFail` records a failed one (SQLite sets the
out-parameter to `NULL`, so no handle exists); bind events carry the
position, the bound value and the discarded return code; `step` records
`sqlite3_step` with whether it returned `SQLITE_DONE`; `finalize` records
`sqlite3_finalize`. -/
inductive Ev where
  | prepareOk (sql : String)
  | prepareFail (sql : String)
  | bindText (pos : Nat) (v : String) (rc : Int)
  | bindInt (pos : Nat) (v : Int) (rc : Int)
  | step (done : Bool)
  | finalize
deriving DecidableEq, Repr

/-- Number of statement handles allocated in a trace (successful prepares). -/
def stmtAllocCount (tr : List Ev) : Nat :=
  tr.countP (fun e => match e with | .prepareOk _ => true | _ => false)

/-- Number of `sqlite3_finalize` calls in a trace. -/
def finalizeCount (tr : List Ev) : Nat :=
  tr.countP (fun e => match e with | .finalize => true | _ => false)

/-- Whether an event is a parameter-binding call. -/
def isBindEv : Ev → Bool
  | .bindText _ _ _ => true
  | .bindInt _ _ _ => true
  | _ => false

/-- The parameter-binding calls of a trace, in order. -/
def bindEvents (tr : List Ev) : List Ev := tr.filter isBindEv

/-- Whether an event is a `sqlite3_step` call. -/
def isStepEv : Ev → Bool
  | .step _ => true
  | _ => false

/-- The fixed SQL templates of the source, verbatim. -/
def insertSQL : String := "INSERT INTO Users (Name, Age) VALUES (?, ?);"

/-- SQL template of `updateData`. -/
def updateSQL : String := "UPDATE Users SET Name = ?, Age = ? WHERE ID = ?;"

/-- Engine model: a successful step of the prepared insert statement appends
one row carrying the next `AUTOINCREMENT` key. -/
def applyInsert (st : DBState) (name : String) (age : Int) : DBState :=
  { st with rows := st.rows ++ [⟨st.nextId, name, age⟩], nextId := st.nextId + 1 }

/-- Engine model: a successful step of the prepared update statement rewrites
`Name`/`Age` of every row whose `ID` matches the bound key (keys are unique
in reachable stores); a key matching no row changes nothing and is still a
successful step. -/
def applyUpdate (st : DBState) (id : Int) (name : String) (age : Int) : DBState :=
  { st with rows := st.rows.map (fun r => if r.id = id then { r with name := name, age := age } else r) }

/-- Engine model: `sqlite3_prepare_v2` succeeds exactly when the engine does
not glitch, the text is one of the two write templates the program ever
prepares, and the `Users` table they reference exists (SQLite resolves
table names at prepare time). -/
def enginePrepareOk (eng : Engine) (st : DBState) (sql : String) : Bool :=
  !eng.prepareGlitch && (sql == insertSQL || sql == updateSQL) && st.tableExists

/-- Engine model: the store after a successful step of a write statement with
a text bound at position 1 and an integer at position 2 (the only shape the
generic executor produces). For the update template the `ID` placeholder is
then unbound, hence `NULL`, which matches no row. -/
def engineWriteStep (st : DBState) (sql : String) (name : String) (age : Int) : DBState :=
  if sql == insertSQL then applyInsert st name age else st

deriving instance DecidableEq for Except

/-- Result of one write operation: the surfaced result (`throw` becomes
`Except.error`), the store afterwards, and the native-call trace. -/
structure ExecResult where
  res : Except DBError Unit
  st : DBState
  trace : List Ev
deriving DecidableEq, Repr

/-- Embedding of `validateInput`: age is checked first, then the name; each
failing check throws `std::invalid_argument` (C++ `name.length()` counts
string units, rendered here as `String.length`). -/
def validateInput (name : String) (age : Int) : Except DBError Unit :=
  if age < 0 ∨ age > 150 then .error .ageOutOfRange
  else if name.length = 0 ∨ name.length > 100 then .error .nameInvalid
  else .ok ()

/-- Embedding of `executePreparedSQL`: prepare (throwing on failure, with the
statement out-parameter left `NULL` by the engine), bind the text at
position 1 and the integer at position 2 discarding both return codes, step
(throwing on any outcome other than `SQLITE_DONE`, without reaching the
finalize below), then finalize. The trace records each native call made. -/
def executePreparedSQL (eng : Engine) (st : DBState) (sql : String) (name : String) (age : Int) : ExecResult :=
  if !enginePrepareOk eng st sql then
    ⟨.error .prepareFailed, st, [.prepareFail sql]⟩
  else
    let tr : List Ev := [.prepareOk sql, .bindText 1 name eng.bindTextRc, .bindInt 2 age eng.bindIntRc]
    if eng.stepGlitch then
      ⟨.error .execFailed, st, tr ++ [.step false]⟩
    else
      ⟨.ok (), engineWriteStep st sql name age, tr ++ [.step true, .finalize]⟩

/-- Embedding of `createTable`: `sqlite3_exec` of the fixed
`CREATE TABLE IF NOT EXISTS Users (...)` statement. The statement is
well-formed and idempotent by construction, so in this single-threaded
fault-free engine model it succeeds whether or not the table already
exists ("already exists" is not an error under `IF NOT EXISTS`); the
`Except` codomain keeps the source's throw site for `DdlFailed`. -/
def createTable (st : DBState) : Except DBError Unit × DBState :=
  (.ok (), { st with tableExists := true })

/-- Embedding of `insertData`: validate (the throw propagates before any
statement work), then run the generic executor on the fixed insert
template. -/
def insertData (eng : Engine) (st : DBState) (name : String) (age : Int) : ExecResult :=
  match validateInput name age with
  | .error e => ⟨.error e, st, []⟩
  | .ok _ => executePreparedSQL eng st insertSQL name age

/-- Embedding of `readData`: `sqlite3_exec` of `SELECT * FROM Users;`
streaming each row to the callback; the value is the list of rows
delivered. Fails when the table does not exist. -/
def readData (st : DBState) : Except DBError (List Row) :=
  if st.tableExists then .ok st.rows else .error .readFailed

/-- Embedding of `updateData`: validate, then inline prepare / bind text at 1,
int at 2, int (the key) at 3 with all three return codes discarded / step
(throwing before any finalize when the step fails) / finalize. -/
def updateData (eng : Engine) (st : DBState) (id : Int) (name : String) (age : Int) : ExecResult :=
  match validateInput name age with
  | .error e => ⟨.error e, st, []⟩
  | .ok _ =>
    if eng.prepareGlitch || !st.tableExists then
      ⟨.error .prepareFailed, st, [.prepareFail updateSQL]⟩
    else
      let tr : List Ev := [.prepareOk updateSQL, .bindText 1 name eng.bindTextRc,
        .bindInt 2 age eng.bindIntRc, .bindInt 3 id eng.bindIdRc]
      if eng.stepGlitch then
        ⟨.error .execFailed, st, tr ++ [.step false]⟩
      else
        ⟨.ok (), applyUpdate st id name age, tr ++ [.step true, .finalize]⟩

/-- Native-call events of the `DatabaseConnection` lifecycle: the
`sqlite3_open` call (whether it returned `SQLITE_OK`, and whether a handle
was placed in the out-parameter — SQLite usually allocates one even on
failure) and any `sqlite3_close` call. -/
inductive ConnEv where
  | openCall (ok : Bool) (handleAllocated : Bool)
  | closeCall
deriving DecidableEq, Repr

/-- Embedding of a C++ scope owning a `DatabaseConnection`: the constructor
runs `sqlite3_open` and throws on failure; since a destructor only runs for
a fully constructed object, a constructor throw means `sqlite3_close` is
never called on whatever handle `sqlite3_open` produced. On success the
destructor fires exactly once at scope exit, on the normal path and on
unwind alike (`bodyThrows` models the scope body propagating an error). -/
def databaseConnectionScope (openOk : Bool) (handleOnFail : Bool) (bodyThrows : Bool) :
    Except DBError Unit × List ConnEv :=
  if openOk then
    if bodyThrows then
      (.error .execFailed, [.openCall true true, .closeCall])
    else
      (.ok (), [.openCall true true, .closeCall])
  else
    (.error .connectionFailed, [.openCall false handleOnFail])

/-- Number of native handles acquired in a connection trace. -/
def handleAllocCount (tr : List ConnEv) : Nat :=
  tr.countP (fun e => match e with | .openCall _ alloc => alloc | _ => false)

/-- Number of `sqlite3_close` calls in a connection trace. -/
def closeCallCount (tr : List ConnEv) : Nat :=
  tr.countP (fun e => match e with | .closeCall => true | _ => false)

/-- Sample engine with no environmental faults and zero bind return codes. -/
def calmEngine : Engine := ⟨false, false, 0, 0, 0⟩

/-- Sample store: table created, one row, next key 2. -/
def sampleStore : DBState := ⟨true, [⟨1, "Alice", 25⟩], 2⟩

/-- C1: the claim says the prepared statement is finalized on every exit path
of the write executors. It is not: when `sqlite3_step` fails, both
`executePreparedSQL` and `updateData` throw before ever reaching
`sqlite3_finalize`, so a live statement handle (one successful prepare,
zero finalizes) is leaked. Evaluated here at a step-failing engine. -/
theorem c1_step_failure_leaks_statement :
    (insertData ⟨false, true, 0, 0, 0⟩ sampleStore "Alice" 25).res = Except.error DBError.execFailed ∧
    stmtAllocCount (insertData ⟨false, true, 0, 0, 0⟩ sampleStore "Alice" 25).trace = 1 ∧
    finalizeCount (insertData ⟨false, true, 0, 0, 0⟩ sampleStore "Alice" 25).trace = 0 ∧
    (updateData ⟨false, true, 0, 0, 0⟩ sampleStore 1 "Bob" 30).res = Except.error DBError.execFailed ∧
    stmtAllocCount (updateData ⟨false, true, 0, 0, 0⟩ sampleStore 1 "Bob" 30).trace = 1 ∧
    finalizeCount (updateData ⟨false, true, 0, 0, 0⟩ sampleStore 1 "Bob" 30).trace = 0 := by
  decide

/-- C2: the claim says the native connection handle is released exactly once
on every exit of the owning scope, even when opening partially failed after
a handle was acquired. On the success paths (normal exit and unwind) the
destructor does close exactly once; but when `sqlite3_open` fails while
still producing a handle, the constructor throws without `sqlite3_close`
and the destructor of the never-constructed object cannot run: one handle
acquired, zero closes — a leak. -/
theorem c2_open_failure_leaks_handle :
    (databaseConnectionScope true true false).1 = Except.ok () ∧
    handleAllocCount (databaseConnectionScope true true false).2 = 1 ∧
    closeCallCount (databaseConnectionScope true true false).2 = 1 ∧
    handleAllocCount (databaseConnectionScope true true true).2 = 1 ∧
    closeCallCount (databaseConnectionScope true true true).2 = 1 ∧
    (databaseConnectionScope false true false).1 = Except.error DBError.connectionFailed ∧
    handleAllocCount (databaseConnectionScope false true false).2 = 1 ∧
    closeCallCount (databaseConnectionScope false true false).2 = 0 := by
  decide

/-- C3 counterexample: the claim says any empty or over-long name fails with
the name-invalid error, but `validateInput` checks the age first, so the
input (name = "", age = 200) fails with the age error instead. -/
theorem c3_name_error_shadowed_by_age :
    "".length = 0 ∧ (200 : Int) > 150 ∧
    validateInput "" 200 = Except.error DBError.ageOutOfRange ∧
    validateInput "" 200 ≠ Except.error DBError.nameInvalid := by
  decide

/-- C3 (amended): validation succeeds exactly on age in [0,150] and name
length in [1,100]; any out-of-range age yields the age error; an invalid
name yields the name error when the age is in range (the age check runs
first and takes precedence). -/
theorem c3_validate_ranges (name : String) (age : Int) :
    (0 ≤ age ∧ age ≤ 150 ∧ 1 ≤ name.length ∧ name.length ≤ 100 →
      validateInput name age = Except.ok ()) ∧
    (age < 0 ∨ age > 150 → validateInput name age = Except.error DBError.ageOutOfRange) ∧
    (0 ≤ age ∧ age ≤ 150 → name.length = 0 ∨ name.length > 100 →
      validateInput name age = Except.error DBError.nameInvalid) := by
  unfold validateInput
  refine ⟨fun h => ?_, fun h => ?_, fun h1 h2 => ?_⟩
  · obtain ⟨h1, h2, h3, h4⟩ := h
    rw [if_neg (by omega), if_neg (by omega)]
  · rw [if_pos h]
  · obtain ⟨ha, hb⟩ := h1
    rw [if_neg (by omega), if_pos h2]

/-- C3 witness: a valid input is accepted, an over-age input is rejected with
the age error, an empty name with in-range age is rejected with the name
error — each via the amended range theorem. -/
theorem c3_witness :
    validateInput "Alice" 25 = Except.ok () ∧
    validateInput "Bob" 200 = Except.error DBError.ageOutOfRange ∧
    validateInput "" 30 = Except.error DBError.nameInvalid :=
  ⟨(c3_validate_ranges "Alice" 25).1 (by decide),
   (c3_validate_ranges "Bob" 200).2.1 (by decide),
   (c3_validate_ranges "" 30).2.2 (by decide) (by decide)⟩

/-- C4: when validation fails, both write operations surface exactly the
validation error before any statement work: the store is untouched and the
native-call trace is empty — in particular no statement was prepared. -/
theorem c4_validation_precedes_prepare (eng : Engine) (st : DBState) (id : Int)
    (name : String) (age : Int) (e : DBError)
    (h : validateInput name age = Except.error e) :
    insertData eng st name age = ⟨Except.error e, st, []⟩ ∧
    stmtAllocCount (insertData eng st name age).trace = 0 ∧
    updateData eng st id name age = ⟨Except.error e, st, []⟩ ∧
    stmtAllocCount (updateData eng st id name age).trace = 0 := by
  refine ⟨?_, ?_, ?_, ?_⟩ <;> simp [insertData, updateData, h, stmtAllocCount]

/-- C4 witness: an empty name is rejected by insert and update alike, with the
store unchanged and no statement prepared. -/
theorem c4_witness :
    insertData calmEngine sampleStore "" 25 = ⟨Except.error DBError.nameInvalid, sampleStore, []⟩ ∧
    stmtAllocCount (insertData calmEngine sampleStore "" 25).trace = 0 ∧
    updateData calmEngine sampleStore 1 "" 25 = ⟨Except.error DBError.nameInvalid, sampleStore, []⟩ ∧
    stmtAllocCount (updateData calmEngine sampleStore 1 "" 25).trace = 0 :=
  c4_validation_precedes_prepare calmEngine sampleStore 1 "" 25 DBError.nameInvalid (by decide)

/-- C6: running the idempotent DDL twice succeeds both times, the second run
leaves the store exactly as the first left it, and in particular the second
run does not fail with `DdlFailed`. -/
theorem c6_create_table_idempotent (st : DBState) :
    (createTable st).1 = Except.ok () ∧
    (createTable (createTable st).2).1 = Except.ok () ∧
    (createTable (createTable st).2).2 = (createTable st).2 ∧
    (createTable (createTable st).2).1 ≠ Except.error DBError.ddlFailed := by
  refine ⟨rfl, rfl, rfl, by simp [createTable]⟩

/-- C5: for every valid name (any string, SQL metacharacters included) a
faultless insert prepares exactly the fixed template — the prepared text is
the constant `insertSQL`, independent of the value — with the name carried
only by a typed positional bind (text at 1, integer at 2); the literal text
is stored unchanged in the appended row, no existing row is removed, and
the schema (table existence) is untouched. -/
theorem c5_insert_binds_never_interpolates (eng : Engine) (st : DBState) (name : String) (age : Int)
    (hv : validateInput name age = Except.ok ())
    (hp : eng.prepareGlitch = false) (hs : eng.stepGlitch = false)
    (ht : st.tableExists = true) :
    (insertData eng st name age).trace =
      [Ev.prepareOk insertSQL, Ev.bindText 1 name eng.bindTextRc,
        Ev.bindInt 2 age eng.bindIntRc, Ev.step true, Ev.finalize] ∧
    (insertData eng st name age).res = Except.ok () ∧
    (insertData eng st name age).st.rows = st.rows ++ [⟨st.nextId, name, age⟩] ∧
    (insertData eng st name age).st.tableExists = st.tableExists := by
  refine ⟨?_, ?_, ?_, ?_⟩ <;>
    simp [insertData, hv, executePreparedSQL, enginePrepareOk, hp, hs, ht,
      engineWriteStep, applyInsert]

/-- C5 witness: inserting the classic injection probe as the name stores its
literal text as a new row, keeps the existing row, and leaves the table in
place. -/
theorem c5_witness :
    (insertData calmEngine sampleStore "Robert'); DROP TABLE Users;--" 25).st.rows =
      [⟨1, "Alice", 25⟩, ⟨2, "Robert'); DROP TABLE Users;--", 25⟩] ∧
    (insertData calmEngine sampleStore "Robert'); DROP TABLE Users;--" 25).st.tableExists = true := by
  have h := c5_insert_binds_never_interpolates calmEngine sampleStore
    "Robert'); DROP TABLE Users;--" 25 (by decide) rfl rfl rfl
  exact ⟨h.2.2.1.trans (by decide), h.2.2.2.trans rfl⟩

/-- C7: a faultless insert on a store whose keys are all below the next
`AUTOINCREMENT` key succeeds, and reading afterwards yields exactly the old
rows plus one new row carrying the inserted name and age, whose key is
strictly greater than every previously assigned key and equal to none of
them. -/
theorem c7_insert_then_read (eng : Engine) (st : DBState) (name : String) (age : Int)
    (hv : validateInput name age = Except.ok ())
    (hp : eng.prepareGlitch = false) (hs : eng.stepGlitch = false)
    (ht : st.tableExists = true)
    (hinv : ∀ r ∈ st.rows, r.id < st.nextId) :
    (insertData eng st name age).res = Except.ok () ∧
    readData (insertData eng st name age).st = Except.ok (st.rows ++ [⟨st.nextId, name, age⟩]) ∧
    (∀ r ∈ st.rows, r.id < st.nextId) ∧
    st.nextId ∉ st.rows.map Row.id := by
  refine ⟨?_, ?_, hinv, ?_⟩
  · simp [insertData, hv, executePreparedSQL, enginePrepareOk, hp, hs, ht]
  · simp [insertData, hv, executePreparedSQL, enginePrepareOk, hp, hs, ht,
      engineWriteStep, applyInsert, readData]
  · simp only [List.mem_map, not_exists]
    rintro r ⟨hr, he⟩
    have := hinv r hr
    omega

/-- C7 witness: inserting ("Bob", 30) into the sample store succeeds and a
subsequent read yields the old row followed by exactly one new row with key
2, name "Bob", age 30. -/
theorem c7_witness :
    (insertData calmEngine sampleStore "Bob" 30).res = Except.ok () ∧
    readData (insertData calmEngine sampleStore "Bob" 30).st =
      Except.ok [⟨1, "Alice", 25⟩, ⟨2, "Bob", 30⟩] := by
  have h := c7_insert_then_read calmEngine sampleStore "Bob" 30 (by decide) rfl rfl rfl (by decide)
  exact ⟨h.1, h.2.1.trans (by decide)⟩

/-- C8: a faultless update whose key matches no stored row (with valid name
and age) completes without error and leaves the store exactly as it was. -/
theorem c8_update_missing_id_noop (eng : Engine) (st : DBState) (id : Int)
    (name : String) (age : Int)
    (hv : validateInput name age = Except.ok ())
    (hp : eng.prepareGlitch = false) (hs : eng.stepGlitch = false)
    (ht : st.tableExists = true)
    (hid : ∀ r ∈ st.rows, r.id ≠ id) :
    (updateData eng st id name age).res = Except.ok () ∧
    (updateData eng st id name age).st = st := by
  have hmap : st.rows.map
      (fun r => if r.id = id then { r with name := name, age := age } else r) = st.rows := by
    rw [List.map_congr_left (fun r hr => if_neg (hid r hr))]
    simp
  refine ⟨?_, ?_⟩
  · simp [updateData, hv, hp, hs, ht]
  · have h1 : (updateData eng st id name age).st = applyUpdate st id name age := by
      simp [updateData, hv, hp, hs, ht]
    rw [h1]
    unfold applyUpdate
    rw [hmap]

/-- C8 witness: updating the nonexistent key 99 in the sample store succeeds
and changes nothing. -/
theorem c8_witness :
    (updateData calmEngine sampleStore 99 "Zed" 40).res = Except.ok () ∧
    (updateData calmEngine sampleStore 99 "Zed" 40).st = sampleStore :=
  c8_update_missing_id_noop calmEngine sampleStore 99 "Zed" 40 (by decide) rfl rfl rfl (by decide)

/-- C9: a faultless update whose key matches a stored row succeeds; the store
keeps its schema, next key, and row count, and position by position every
row keeps its key, every row with a non-matching key is untouched, and the
matching row becomes its old key with the new name and age. -/
theorem c9_update_existing_frame (eng : Engine) (st : DBState) (id : Int)
    (name : String) (age : Int)
    (hv : validateInput name age = Except.ok ())
    (hp : eng.prepareGlitch = false) (hs : eng.stepGlitch = false)
    (ht : st.tableExists = true)
    (hex : ∃ r ∈ st.rows, r.id = id) :
    (updateData eng st id name age).res = Except.ok () ∧
    (updateData eng st id name age).st.tableExists = st.tableExists ∧
    (updateData eng st id name age).st.nextId = st.nextId ∧
    (updateData eng st id name age).st.rows.length = st.rows.length ∧
    (∀ i : Nat, (updateData eng st id name age).st.rows[i]? =
      (st.rows[i]?).map (fun r => if r.id = id then { r with name := name, age := age } else r)) ∧
    (∀ r ∈ st.rows, r.id ≠ id → r ∈ (updateData eng st id name age).st.rows) ∧
    (updateData eng st id name age).st.rows.map Row.id = st.rows.map Row.id := by
  have h1 : (updateData eng st id name age).st = applyUpdate st id name age := by
    simp [updateData, hv, hp, hs, ht]
  refine ⟨?_, ?_, ?_, ?_, ?_, ?_, ?_⟩
  · simp [updateData, hv, hp, hs, ht]
  · rw [h1]; rfl
  · rw [h1]; rfl
  · rw [h1]; exact List.length_map _ _
  · intro i
    rw [h1]
    unfold applyUpdate
    simp only [List.getElem?_map]
  · intro r hr hne
    rw [h1]
    unfold applyUpdate
    exact List.mem_map.mpr ⟨r, hr, if_neg hne⟩
  · rw [h1]
    unfold applyUpdate
    simp only [List.map_map]
    refine List.map_congr_left (fun r hr => ?_)
    by_cases hc : r.id = id <;> simp [hc]

/-- C9 witness: updating the existing key 1 of the sample store succeeds, the
keys are unchanged, and the single row keeps its key while taking the new
name and age. -/
theorem c9_witness :
    (updateData calmEngine sampleStore 1 "Alicia" 26).res = Except.ok () ∧
    (updateData calmEngine sampleStore 1 "Alicia" 26).st.rows.map Row.id = [1] ∧
    (updateData calmEngine sampleStore 1 "Alicia" 26).st.rows[0]? = some ⟨1, "Alicia", 26⟩ := by
  have h := c9_update_existing_frame calmEngine sampleStore 1 "Alicia" 26
    (by decide) rfl rfl rfl ⟨⟨1, "Alice", 25⟩, by decide, rfl⟩
  exact ⟨h.1, h.2.2.2.2.2.2.trans (by decide), (h.2.2.2.2.1 0).trans (by decide)⟩

/-- C10: the outcome and the resulting store of the generic write executor and
of update do not depend on the discarded bind return codes (two engines
agreeing on the glitch flags but with arbitrary differing bind codes give
the same result and store); whenever prepare succeeds, execution proceeds
to the step phase regardless of the bind codes; and the binds performed are
exactly one text at position 1 and one integer at position 2 for the
generic executor, plus the integer key at position 3 for update. -/
theorem c10_bind_codes_discarded (eng eng2 : Engine) (st : DBState) (sql name : String)
    (age id : Int)
    (hpg : eng.prepareGlitch = eng2.prepareGlitch) (hsg : eng.stepGlitch = eng2.stepGlitch) :
    ((executePreparedSQL eng st sql name age).res = (executePreparedSQL eng2 st sql name age).res ∧
      (executePreparedSQL eng st sql name age).st = (executePreparedSQL eng2 st sql name age).st) ∧
    (enginePrepareOk eng st sql = true →
      (executePreparedSQL eng st sql name age).trace.any isStepEv = true ∧
      bindEvents (executePreparedSQL eng st sql name age).trace =
        [Ev.bindText 1 name eng.bindTextRc, Ev.bindInt 2 age eng.bindIntRc]) ∧
    ((updateData eng st id name age).res = (updateData eng2 st id name age).res ∧
      (updateData eng st id name age).st = (updateData eng2 st id name age).st) ∧
    (validateInput name age = Except.ok () → eng.prepareGlitch = false → st.tableExists = true →
      (updateData eng st id name age).trace.any isStepEv = true ∧
      bindEvents (updateData eng st id name age).trace =
        [Ev.bindText 1 name eng.bindTextRc, Ev.bindInt 2 age eng.bindIntRc,
          Ev.bindInt 3 id eng.bindIdRc]) := by
  have hpe : enginePrepareOk eng st sql = enginePrepareOk eng2 st sql := by
    simp [enginePrepareOk, hpg]
  refine ⟨?_, fun hpo => ?_, ?_, fun hv hpf htt => ?_⟩
  · unfold executePreparedSQL
    rw [hpe, hsg]
    cases enginePrepareOk eng2 st sql <;> cases eng2.stepGlitch <;> simp
  · unfold executePreparedSQL
    rw [hpo]
    cases hsg2 : eng.stepGlitch <;>
      simp [bindEvents, isBindEv, isStepEv, List.any, List.filter]
  · cases hv : validateInput name age with
    | error e => simp [updateData, hv]
    | ok u =>
      unfold updateData
      rw [hv, hpg, hsg]
      cases eng2.prepareGlitch <;> cases st.tableExists <;> cases eng2.stepGlitch <;> simp
  · unfold updateData
    rw [hv, hpf, htt]
    cases hsg2 : eng.stepGlitch <;>
      simp [bindEvents, isBindEv, isStepEv, List.any, List.filter]

/-- C10 witness: two fault-free engines whose bind return codes differ give
the same insert result, and the faultless executor's binds on the insert
template are exactly the text at position 1 and the integer at position 2,
with a step in the trace. -/
theorem c10_witness :
    (executePreparedSQL ⟨false, false, 0, 0, 0⟩ sampleStore insertSQL "Alice" 25).res =
      (executePreparedSQL ⟨false, false, 7, -3, 9⟩ sampleStore insertSQL "Alice" 25).res ∧
    (executePreparedSQL ⟨false, false, 0, 0, 0⟩ sampleStore insertSQL "Alice" 25).trace.any
      isStepEv = true ∧
    bindEvents (executePreparedSQL ⟨false, false, 0, 0, 0⟩ sampleStore insertSQL "Alice" 25).trace =
      [Ev.bindText 1 "Alice" 0, Ev.bindInt 2 25 0] := by
  have h := c10_bind_codes_discarded ⟨false, false, 0, 0, 0⟩ ⟨false, false, 7, -3, 9⟩
    sampleStore insertSQL "Alice" 25 1 rfl rfl
  have h2 := h.2.1 (by decide)
  exact ⟨h.1.1, h2.1, h2.2⟩

end EPortfolio
